import Mathlib

/-!
Verification of the core state logic of the Santa delivery app
(app/components/santa-game.tsx and app/api/compliance/validate/route.ts).

The development shallowly embeds the pure state-transition content of the
source. Coordinates are modelled as rationals. The JavaScript expression
Math.hypot(dx, dy) (a Euclidean norm) is passed in as an explicit function
parameter hyp, since no verified property depends on its value: every
theorem below is proved for an arbitrary hyp. Calls to Math.random are
modelled by an arbitrary natural number k, used as an index modulo the
length of the list being sampled: exactly the indices Math.floor(r * n)
can produce are realizable, and no others.
-/

namespace Santa

/-! ## Data model (types from santa-game.tsx) -/

inductive ComplianceStage
  | idle
  | alert
  | drafting
  | ready
  | submitted
deriving DecidableEq

structure ComplianceState where
  active : Bool
  agency : Option String
  stage : ComplianceStage
deriving DecidableEq

inductive Role
  | user
  | assistant
  | system
deriving DecidableEq

structure ChatMessage where
  role : Role
  content : String
deriving DecidableEq

structure DraftSections where
  issue : String
  facts : String
  analysis : String
  actions : String
  references : List String
  raw : String
deriving DecidableEq

structure House where
  id : String
  label : String
  latitude : ℚ
  longitude : ℚ
  delivered : Bool
deriving DecidableEq

instance : Inhabited House := ⟨⟨"", "", 0, 0, false⟩⟩

structure Position where
  x : ℚ
  y : ℚ
deriving DecidableEq

/-- The source of emptyDraft. -/
def emptyDraft : DraftSections :=
  { issue := "", facts := "", analysis := "", actions := "", references := [], raw := "" }

/-! ## Character-level utilities for the draft parser

The parser parseDraftContent works with JavaScript regular expressions.
The particular expressions used in the source are backtracking-free in the
sense that greedy and lazy quantifier preferences yield a unique successful
path, so they are modelled by deterministic scanning functions over
List Char. Case-insensitive matching lowers both sides with Char.toLower,
which agrees with the i flag on the ASCII letters involved. -/

/-- The character class of the JavaScript \s escape. -/
def jsSpace (c : Char) : Bool :=
  let n := c.toNat
  n = 32 || n = 9 || n = 10 || n = 11 || n = 12 || n = 13 ||
  n = 160 || n = 5760 ||
  (decide (8192 ≤ n) && decide (n ≤ 8202)) ||
  n = 8232 || n = 8233 || n = 8239 || n = 8287 || n = 12288 || n = 65279

/-- Global replacement of CRLF by LF, as content.replace of r n pairs. -/
def replaceCRLF : List Char → List Char
  | [] => []
  | '\r' :: '\n' :: rest => '\n' :: replaceCRLF rest
  | c :: rest => c :: replaceCRLF rest

/-- String.prototype.trim, over the \s class. -/
def jsTrim (l : List Char) : List Char :=
  ((l.dropWhile (fun c => jsSpace c)).reverse.dropWhile (fun c => jsSpace c)).reverse

/-- Case-insensitive literal match of pat at the front of s, returning the
remainder on success. -/
def stripCI : List Char → List Char → Option (List Char)
  | [], s => some s
  | _ :: _, [] => none
  | p :: ps, c :: cs => if p.toLower = c.toLower then stripCI ps cs else none

/-- The characters of the dash string in the source file, exactly as they
appear in its bytes (a hyphen followed by four mojibake characters). -/
def dashChar (c : Char) : Bool :=
  let n := c.toNat
  n = 45 || n = 8218 || n = 196 || n = 236 || n = 238

/-- The character class of the separator in the REFERENCES expression:
colon plus the dash characters. -/
def refSepChar (c : Char) : Bool :=
  c = ':' || dashChar c

def dropIfDash (s : List Char) : List Char :=
  match s with
  | c :: rest => if dashChar c then rest else s
  | [] => []

def dropIfColon (s : List Char) : List Char :=
  match s with
  | c :: rest => if c = ':' then rest else s
  | [] => []

def dropIfS (s : List Char) : List Char :=
  match s with
  | c :: rest => if c.toLower = 's' then rest else s
  | [] => []

def partChars : List Char := ['P', 'A', 'R', 'T']

def referencesChars : List Char :=
  ['R', 'E', 'F', 'E', 'R', 'E', 'N', 'C', 'E', 'S']

def referenceChars : List Char :=
  ['R', 'E', 'F', 'E', 'R', 'E', 'N', 'C', 'E']

def labelI : List Char := ['I']
def labelII : List Char := ['I', 'I']
def labelIII : List Char := ['I', 'I', 'I']
def labelIV : List Char := ['I', 'V']

def sectionLabels : List (List Char) := [labelI, labelII, labelIII, labelIV]

/-- Match of the head of the section expression at the front of s: the
literal PART, one or more spaces, the label, optional spaces, an optional
dash, optional spaces, an optional colon, optional spaces. Returns the
position where the lazy capture group starts. -/
def matchSectionHead (label : List Char) (s : List Char) : Option (List Char) :=
  match stripCI partChars s with
  | none => none
  | some s1 =>
    match s1 with
    | [] => none
    | c :: _ =>
      if jsSpace c then
        match stripCI label (s1.dropWhile (fun d => jsSpace d)) with
        | none => none
        | some s3 =>
          let s4 := s3.dropWhile (fun d => jsSpace d)
          let s5 := dropIfDash s4
          let s6 := s5.dropWhile (fun d => jsSpace d)
          let s7 := dropIfColon s6
          some (s7.dropWhile (fun d => jsSpace d))
      else none

def isRoman (c : Char) : Bool :=
  c.toLower = 'i' || c.toLower = 'v' || c.toLower = 'x'

/-- First alternative of the lookahead after a newline: PART, one or more
spaces, one or more roman-numeral characters (the trailing optional parts
of the alternative always match). -/
def lookPart (s : List Char) : Bool :=
  match stripCI partChars s with
  | none => false
  | some s1 =>
    match s1 with
    | [] => false
    | c :: _ =>
      jsSpace c &&
        (match s1.dropWhile (fun d => jsSpace d) with
         | [] => false
         | d :: _ => isRoman d)

/-- Second and third alternatives of the lookahead after a newline: the
literal REFERENCES, case-insensitively. -/
def lookRefs (s : List Char) : Bool :=
  (stripCI referencesChars s).isSome

/-- The full lookahead terminating the lazy capture: newline followed by a
PART heading or REFERENCES, or the end of the input. -/
def lookBoundary (s : List Char) : Bool :=
  match s with
  | [] => true
  | c :: rest => c = '\n' && (lookPart rest || lookRefs rest)

/-- The lazy capture group: the shortest prefix whose end position
satisfies the lookahead. -/
def captureUpto : List Char → List Char
  | [] => []
  | c :: rest => if lookBoundary (c :: rest) then [] else c :: captureUpto rest

/-- Leftmost match of the section expression: scan every start position. -/
def findSection (label : List Char) : List Char → Option (List Char)
  | [] => none
  | c :: rest =>
    match matchSectionHead label (c :: rest) with
    | some suffix => some (captureUpto suffix)
    | none => findSection label rest

/-- The getSection helper of parseDraftContent: normalize (trim) the
captured group of the leftmost match, or the empty string. -/
def getSection (label : List Char) (text : List Char) : List Char :=
  match findSection label text with
  | some cap => jsTrim cap
  | none => []

/-- Match of the REFERENCES expression at the front of s: the literal
REFERENCE, an optional S, optional spaces, any number of separator
characters, optional spaces, then a greedy capture of the rest. -/
def matchRefsHead (s : List Char) : Option (List Char) :=
  match stripCI referenceChars s with
  | none => none
  | some s1 =>
    let s2 := dropIfS s1
    let s3 := s2.dropWhile (fun d => jsSpace d)
    let s4 := s3.dropWhile (fun d => refSepChar d)
    some (s4.dropWhile (fun d => jsSpace d))

/-- Leftmost match of the REFERENCES expression. -/
def findRefs : List Char → Option (List Char)
  | [] => none
  | c :: rest =>
    match matchRefsHead (c :: rest) with
    | some cap => some cap
    | none => findRefs rest

/-- The refsBlock of parseDraftContent: the capture of the REFERENCES
match, or the empty string. -/
def refsCapture (text : List Char) : List Char :=
  match findRefs text with
  | some cap => cap
  | none => []

/-- String.prototype.split on newline. -/
def splitNL : List Char → List (List Char)
  | [] => [[]]
  | c :: rest =>
    if c = '\n' then [] :: splitNL rest
    else
      match splitNL rest with
      | [] => [[c]]
      | x :: xs => (c :: x) :: xs

/-- The class stripped from the front of each reference line: dash, star,
digits, dot, whitespace. -/
def leadChar (c : Char) : Bool :=
  c = '-' || c = '*' || c = '.' ||
  (decide (48 ≤ c.toNat) && decide (c.toNat ≤ 57)) ||
  jsSpace c

/-- The reference list: split the block into lines, strip leading bullet
and numbering punctuation, trim, and drop empty lines. -/
def refsList (text : List Char) : List (List Char) :=
  ((splitNL (refsCapture text)).map
    (fun line => jsTrim (line.dropWhile (fun c => leadChar c)))).filter
    (fun l => !l.isEmpty)

/-- Normalization at the top of parseDraftContent: replace CRLF by LF and
trim. -/
def normChars (content : String) : List Char :=
  jsTrim (replaceCRLF content.toList)

/-- The streamed draft parser parseDraftContent. -/
def parseDraftContent (content : String) : DraftSections :=
  let text := normChars content
  let sIssue := getSection labelI text
  let sFacts := getSection labelII text
  let sAnalysis := getSection labelIII text
  let sActions := getSection labelIV text
  let references := refsList text
  let hasContent :=
    !sIssue.isEmpty || !sFacts.isEmpty || !sAnalysis.isEmpty || !sActions.isEmpty
  let issue := if hasContent then sIssue else text
  { issue := String.mk issue
    facts := String.mk sFacts
    analysis := String.mk sAnalysis
    actions := String.mk sActions
    references := references.map String.mk
    raw := String.mk text }

/-! ## Motion controller (the per-frame step of santa-game.tsx) -/

def speedPerSecond : ℚ := 22

def arrivalRadius : ℚ := 7 / 5

/-- Saturating clamp, as in the source. -/
def clamp (value lo hi : ℚ) : ℚ :=
  if value < lo then lo else if value > hi then hi else value

/-- Log feed update: the source keeps current.slice of the last twelve
entries and appends the new line. -/
def pushLog (logs : List String) (entry : String) : List String :=
  logs.drop (logs.length - 12) ++ [entry]

def routingText (label : String) (n : Nat) : String :=
  "Routing to " ++ label ++ " (" ++ toString n ++ " left after this)."

def deliveredText (label : String) : String :=
  "Delivered at " ++ label ++ "."

/-- The mutable state read and written by the frame loop: the agent
position, the waypoint collection, the current target reference, the
published compliance-active flag, and the log feed. -/
structure GameState where
  santa : Position
  houses : List House
  target : Option String
  complianceActive : Bool
  logs : List String
deriving DecidableEq

/-- The pickNextTarget helper: filter to undelivered houses; if none are
left clear the target, else choose one at random (index k modulo the
count), record its id and log the routing line. -/
def pickNextTarget (k : Nat) (s : GameState) : GameState :=
  let remaining := s.houses.filter (fun h => !h.delivered)
  if remaining.length = 0 then
    { s with target := none }
  else
    let next := remaining.getD (k % remaining.length) default
    { s with
      target := some next.id
      logs := pushLog s.logs (routingText next.label remaining.length) }

/-- One frame of the step callback. dt is the already-clamped elapsed time
in seconds; hyp models Math.hypot; k models the random draw inside
pickNextTarget. -/
def step (hyp : ℚ → ℚ → ℚ) (dt : ℚ) (k : Nat) (s : GameState) : GameState :=
  if s.complianceActive then s
  else
    match s.target with
    | none => pickNextTarget k s
    | some tid =>
      match s.houses.find? (fun h => h.id == tid && !h.delivered) with
      | none => { s with target := none }
      | some tgt =>
        let dx := tgt.longitude - s.santa.x
        let dy := tgt.latitude - s.santa.y
        let distance := hyp dx dy
        if distance < arrivalRadius then
          { s with
            houses := s.houses.map
              (fun h => if h.id == tgt.id then { h with delivered := true } else h)
            logs := pushLog s.logs (deliveredText tgt.label)
            target := none }
        else
          let magnitude := if distance = 0 then 1 else distance
          { s with santa :=
              { x := clamp (s.santa.x + dx / magnitude * speedPerSecond * dt) 1 99
                y := clamp (s.santa.y + dy / magnitude * speedPerSecond * dt) 1 99 } }

/-- A sequence of frames, each with its own elapsed time and random draw. -/
def runTicks (hyp : ℚ → ℚ → ℚ) (ticks : List (ℚ × Nat)) (s : GameState) : GameState :=
  ticks.foldl (fun st t => step hyp t.1 t.2 st) s

/-- The position bounds the spec requires after clamping. -/
def inBounds (p : Position) : Prop :=
  1 ≤ p.x ∧ p.x ≤ 99 ∧ 1 ≤ p.y ∧ p.y ≤ 99

/-- The target invariant: a non-null target reference names a waypoint of
the collection whose delivered flag is false. -/
def targetOk (s : GameState) : Bool :=
  match s.target with
  | none => true
  | some tid => s.houses.any (fun h => h.id == tid && !h.delivered)

/-! ## Interrupt scheduler and compliance session handlers -/

def AGENCIES : List String :=
  [ "Federal Aviation Administration (FAA) - United States"
  , "European Union Aviation Safety Agency (EASA) - Europe"
  , "Civil Aviation Administration of China (CAAC) - China"
  , "International Civil Aviation Organization (ICAO) - United Nations agency (global)"
  , "North American Aerospace Defense Command (NORAD) - United States & Canada"
  , "Transport Canada Civil Aviation (TCCA) - Canada"
  , "Civil Aviation Authority (CAA) - United Kingdom"
  , "Civil Aviation Safety Authority (CASA) - Australia"
  , "Directorate General of Civil Aviation (DGCA) - India"
  , "NAV CANADA - Canada (air navigation services)"
  , "Skeyes (formerly Belgocontrol) - Belgium"
  , "Skyguide - Switzerland"
  , "Deutsche Flugsicherung (DFS) - Germany"
  , "ENAV - Italy"
  , "ENAIRE - Spain"
  , "Direction des Services de la Navigation A√©rienne (DSNA) - France"
  , "Civil Aviation Authority of Singapore - Singapore"
  , "Civil Aviation Authority of Bangladesh - Bangladesh"
  , "Civil Aviation Authority of Nepal - Nepal"
  , "Civil Aviation Authority of the Philippines - Philippines"
  , "Russian Federal Air Transport Agency (Rosaviatsiya) - Russia"
  , "General Authority of Civil Aviation - Saudi Arabia"
  , "Civil Aviation Administration (Sweden) - Sweden"
  , "PANSA (Polska Agencja ≈ªeglugi Powietrznej) - Poland"
  , "State Air Traffic Management Corporation - South Africa"
  ]

/-- Random agency pick, index k modulo the catalog length. -/
def pickAgency (k : Nat) : String :=
  AGENCIES.getD (k % AGENCIES.length) ""

/-- The seeded incident message installed as the initial transcript. -/
def incidentText (agency : String) : String :=
  "Incident: " ++ agency ++
    " has flagged Santa\u0027s sleigh during Christmas Eve gift runs. Share the airspace segment, timing, reindeer-safe altitudes, and corrective steps so the elves can draft a festive, regulation-ready response."

def activationLog (agency : String) : String :=
  agency ++ " has filed an airspace compliance action. Deliveries paused."

/-- The session-level state touched by the scheduler and the compliance
handlers: the ComplianceState, the chat transcript, the derived draft and
the log feed. -/
structure SessionState where
  compliance : ComplianceState
  chat : List ChatMessage
  draft : DraftSections
  logs : List String
deriving DecidableEq

/-- One attempt of the interrupt scheduler (triggerCompliance). remaining
is the published count of undelivered waypoints; k models the random
agency draw. -/
def triggerCompliance (k : Nat) (remaining : Nat) (s : SessionState) : SessionState :=
  if s.compliance.active = false ∧ 0 < remaining then
    { compliance :=
        { active := true, agency := some (pickAgency k), stage := ComplianceStage.alert }
      chat := [{ role := Role.assistant, content := incidentText (pickAgency k) }]
      draft := emptyDraft
      logs := pushLog s.logs (activationLog (pickAgency k)) }
  else s

def submittedLogText : String :=
  "Compliance case submitted. Resuming deliveries."

/-- The immediate effect of the submitCase handler: stop the stream (the
transcript is untouched at this point), set the stage to submitted and log.
The deferred reset is submitCaseReset below. -/
def submitCase (s : SessionState) : SessionState :=
  { s with
    compliance := { s.compliance with stage := ComplianceStage.submitted }
    logs := pushLog s.logs submittedLogText }

/-- The deferred reset scheduled by submitCase after a fixed delay. -/
def submitCaseReset (s : SessionState) : SessionState :=
  { s with
    compliance := { active := false, agency := none, stage := ComplianceStage.idle }
    chat := []
    draft := emptyDraft }

/-- Whether the modal renders an enabled control invoking the submit
handler at the given stage: one instance is rendered while drafting but
disabled unless the stage is ready, the other is rendered when ready. -/
def submitButtonEnabled (stage : ComplianceStage) : Bool :=
  (decide (stage = ComplianceStage.drafting) && decide (stage = ComplianceStage.ready))
    || decide (stage = ComplianceStage.ready)

def validationFailedText : String :=
  "Validation failed. Please retry."

def validationCompleteText : String :=
  "Validation complete."

/-- The validateCase handler. outcome models the awaited external call:
some text when the request resolves with a response body, none when it
throws. The guard mirrors the isValidating and empty-transcript check. -/
def validateCase (isValidating : Bool) (outcome : Option String) (s : SessionState) :
    SessionState :=
  if isValidating || s.chat.isEmpty then s
  else
    match outcome with
    | some text =>
      { s with
        chat := s.chat ++
          [{ role := Role.assistant
             content := if text = "" then validationCompleteText else text }]
        compliance := { s.compliance with stage := ComplianceStage.ready } }
    | none =>
      { s with
        chat := s.chat ++ [{ role := Role.assistant, content := validationFailedText }] }

/-! ## Theorems: motion controller -/

theorem pickNextTarget_santa (k : Nat) (s : GameState) :
    (pickNextTarget k s).santa = s.santa := by
  simp only [pickNextTarget]
  split <;> rfl

theorem pickNextTarget_houses (k : Nat) (s : GameState) :
    (pickNextTarget k s).houses = s.houses := by
  simp only [pickNextTarget]
  split <;> rfl

theorem clamp_mem (v lo hi : ℚ) (h : lo ≤ hi) :
    lo ≤ clamp v lo hi ∧ clamp v lo hi ≤ hi := by
  unfold clamp
  split_ifs with h1 h2 <;> constructor <;> linarith

/-- Claim C2: while the published compliance-active flag is true, the tick
callback returns the whole state unchanged: position, waypoint collection,
target reference and log feed at tick N all equal their values at tick
N plus one (full suspension, no target re-evaluation). -/
theorem step_suspended (hyp : ℚ → ℚ → ℚ) (dt : ℚ) (k : Nat) (s : GameState)
    (h : s.complianceActive = true) : step hyp dt k s = s := by
  simp [step, h]

def suspendedFixture : GameState :=
  { santa := { x := 48, y := 30 }
    houses := [{ id := "house-1", label := "House 1", latitude := 50, longitude := 50,
                 delivered := false }]
    target := some "house-1"
    complianceActive := true
    logs := [] }

theorem step_suspended_witness :
    step (fun _ _ => 0) 1 0 suspendedFixture = suspendedFixture :=
  step_suspended (fun _ _ => 0) 1 0 suspendedFixture rfl

theorem step_inBounds (hyp : ℚ → ℚ → ℚ) (dt : ℚ) (k : Nat) (s : GameState)
    (h : inBounds s.santa) : inBounds (step hyp dt k s).santa := by
  simp only [step]
  split
  · exact h
  · split
    · rw [pickNextTarget_santa]
      exact h
    · split
      · exact h
      · split
        · exact h
        · exact ⟨(clamp_mem _ 1 99 (by norm_num)).1, (clamp_mem _ 1 99 (by norm_num)).2,
                 (clamp_mem _ 1 99 (by norm_num)).1, (clamp_mem _ 1 99 (by norm_num)).2⟩

/-- Claim C3: starting from the initial position of the agent, every
sequence of ticks, with arbitrary elapsed times, random draws and waypoint
configuration, keeps both position coordinates within the closed interval
from one to ninety-nine. -/
theorem santa_stays_in_bounds (hyp : ℚ → ℚ → ℚ) (ticks : List (ℚ × Nat)) (s : GameState)
    (h : s.santa = { x := 48, y := 30 }) : inBounds (runTicks hyp ticks s).santa := by
  have aux : ∀ (ts : List (ℚ × Nat)) (st : GameState), inBounds st.santa →
      inBounds (runTicks hyp ts st).santa := by
    intro ts
    induction ts with
    | nil => intro st hst; exact hst
    | cons t rest ih => intro st hst; exact ih _ (step_inBounds hyp t.1 t.2 st hst)
  apply aux
  rw [h]
  refine ⟨by norm_num, by norm_num, by norm_num, by norm_num⟩

def startFixture : GameState :=
  { santa := { x := 48, y := 30 }
    houses := [{ id := "house-1", label := "House 1", latitude := 50, longitude := 50,
                 delivered := false }]
    target := none
    complianceActive := false
    logs := [] }

theorem santa_stays_in_bounds_witness :
    inBounds (runTicks (fun _ _ => 0) [(1, 0)] startFixture).santa :=
  santa_stays_in_bounds (fun _ _ => 0) [(1, 0)] startFixture rfl

theorem pickNextTarget_targetOk (k : Nat) (s : GameState) :
    targetOk (pickNextTarget k s) = true := by
  simp only [pickNextTarget]
  split
  · simp [targetOk]
  · rename_i hlen
    have hpos : 0 < (s.houses.filter (fun h => !h.delivered)).length :=
      Nat.pos_of_ne_zero hlen
    have hlt : k % (s.houses.filter (fun h => !h.delivered)).length <
        (s.houses.filter (fun h => !h.delivered)).length := Nat.mod_lt _ hpos
    have hmem : (s.houses.filter (fun h => !h.delivered)).getD
        (k % (s.houses.filter (fun h => !h.delivered)).length) default ∈
        s.houses.filter (fun h => !h.delivered) := by
      rw [List.getD_eq_getElem?_getD, List.getElem?_eq_getElem hlt]
      exact List.getElem_mem hlt
    have h2 := List.mem_filter.mp hmem
    have hid := h2.1
    have hdel : (!(((s.houses.filter (fun h => !h.delivered)).getD
        (k % (s.houses.filter (fun h => !h.delivered)).length) default).delivered)) = true :=
      h2.2
    simp only [targetOk]
    apply List.any_eq_true.mpr
    exact ⟨_, hid, by simp_all⟩

theorem step_targetOk (hyp : ℚ → ℚ → ℚ) (dt : ℚ) (k : Nat) (s : GameState)
    (h : targetOk s = true) : targetOk (step hyp dt k s) = true := by
  simp only [step]
  split
  · exact h
  · split
    · exact pickNextTarget_targetOk k s
    · split
      · simp [targetOk]
      · split
        · simp [targetOk]
        · exact h

/-- Claim C7: the target invariant is preserved by every sequence of
ticks: whenever the target reference is non-null it names a waypoint of
the collection whose delivered flag is false; target selection chooses
only among undelivered waypoints and the reference is cleared when the
referenced waypoint is delivered or no longer resolves. -/
theorem target_never_delivered (hyp : ℚ → ℚ → ℚ) (ticks : List (ℚ × Nat)) :
    ∀ s : GameState, targetOk s = true → targetOk (runTicks hyp ticks s) = true := by
  induction ticks with
  | nil => intro s h; exact h
  | cons t rest ih => intro s h; exact ih _ (step_targetOk hyp t.1 t.2 s h)

def searchFixture : GameState :=
  { santa := { x := 48, y := 30 }
    houses := [{ id := "house-1", label := "House 1", latitude := 50, longitude := 50,
                 delivered := false }]
    target := none
    complianceActive := false
    logs := [] }

theorem target_never_delivered_witness :
    targetOk (runTicks (fun _ _ => 0) [(1, 0), (1, 0)] searchFixture) = true :=
  target_never_delivered (fun _ _ => 0) [(1, 0), (1, 0)] searchFixture rfl

theorem step_delivered_mono (hyp : ℚ → ℚ → ℚ) (dt : ℚ) (k : Nat) (s : GameState)
    (i : Nat) (a : House) (h1 : s.houses[i]? = some a) (h2 : a.delivered = true) :
    ∃ b : House, (step hyp dt k s).houses[i]? = some b ∧ b.delivered = true := by
  simp only [step]
  split
  · exact ⟨a, h1, h2⟩
  · split
    · exact ⟨a, by rw [pickNextTarget_houses]; exact h1, h2⟩
    · split
      · exact ⟨a, h1, h2⟩
      · split
        · rename_i tgt hfind hlt
          refine ⟨if (a.id == tgt.id) = true then { a with delivered := true } else a, ?_, ?_⟩
          · show (s.houses.map _)[i]? = _
            rw [List.getElem?_map, h1]
            rfl
          · split
            · rfl
            · exact h2
        · exact ⟨a, h1, h2⟩

/-- Claim C8: over every sequence of ticks a delivered flag never reverts:
a waypoint delivered in the current collection is still delivered, at the
same index, after the run; hence a flag flips from false to true at most
once and never back. -/
theorem delivered_monotone (hyp : ℚ → ℚ → ℚ) (ticks : List (ℚ × Nat)) :
    ∀ (s : GameState) (i : Nat) (a : House), s.houses[i]? = some a → a.delivered = true →
      ∃ b : House, (runTicks hyp ticks s).houses[i]? = some b ∧ b.delivered = true := by
  induction ticks with
  | nil => intro s i a h1 h2; exact ⟨a, h1, h2⟩
  | cons t rest ih =>
    intro s i a h1 h2
    obtain ⟨b, hb1, hb2⟩ := step_delivered_mono hyp t.1 t.2 s i a h1 h2
    exact ih _ i b hb1 hb2

def deliveredFixture : GameState :=
  { santa := { x := 48, y := 30 }
    houses := [{ id := "house-1", label := "House 1", latitude := 50, longitude := 50,
                 delivered := true }]
    target := none
    complianceActive := false
    logs := [] }

theorem delivered_monotone_witness :
    ∃ b : House, (runTicks (fun _ _ => 0) [(1, 0)] deliveredFixture).houses[0]? = some b
      ∧ b.delivered = true :=
  delivered_monotone (fun _ _ => 0) [(1, 0)] deliveredFixture 0
    { id := "house-1", label := "House 1", latitude := 50, longitude := 50,
      delivered := true } rfl rfl

/-! ## Theorems: interrupt scheduler and compliance session -/

/-- Claim C4: an attempt of the interrupt scheduler activates a compliance
event (active flag set, an agency from the catalog picked, stage set to
alert, transcript reset to the seeded incident message, draft cleared)
exactly when the current ComplianceState is inactive and at least one
waypoint remains undelivered; in every other case the attempt returns the
session state unchanged. -/
theorem triggerCompliance_spec (k remaining : Nat) (s : SessionState) :
    ((s.compliance.active = true ∨ remaining = 0) → triggerCompliance k remaining s = s)
  ∧ (s.compliance.active = false → 0 < remaining →
      triggerCompliance k remaining s =
        { compliance := { active := true, agency := some (pickAgency k),
                          stage := ComplianceStage.alert }
          chat := [{ role := Role.assistant, content := incidentText (pickAgency k) }]
          draft := emptyDraft
          logs := pushLog s.logs (activationLog (pickAgency k)) }) := by
  constructor
  · intro h
    unfold triggerCompliance
    rw [if_neg]
    rintro ⟨h1, h2⟩
    rcases h with h | h
    · rw [h1] at h
      cases h
    · omega
  · intro h1 h2
    unfold triggerCompliance
    rw [if_pos ⟨h1, h2⟩]

def idleSession : SessionState :=
  { compliance := { active := false, agency := none, stage := ComplianceStage.idle }
    chat := []
    draft := emptyDraft
    logs := [] }

def busySession : SessionState :=
  { compliance := { active := true, agency := some (pickAgency 0),
                    stage := ComplianceStage.alert }
    chat := []
    draft := emptyDraft
    logs := [] }

theorem triggerCompliance_spec_witness :
    triggerCompliance 0 5 idleSession =
      { compliance := { active := true, agency := some (pickAgency 0),
                        stage := ComplianceStage.alert }
        chat := [{ role := Role.assistant, content := incidentText (pickAgency 0) }]
        draft := emptyDraft
        logs := pushLog idleSession.logs (activationLog (pickAgency 0)) }
  ∧ triggerCompliance 0 5 busySession = busySession :=
  ⟨(triggerCompliance_spec 0 5 idleSession).2 rfl (by decide),
   (triggerCompliance_spec 0 5 busySession).1 (Or.inl rfl)⟩

/-- Claim C9: from the drafting stage with a non-empty transcript and no
validation in flight, the stage advances to ready exactly on the success
path of the validation call; when the call throws, the fixed plain-text
failure line is appended as an assistant message, the ComplianceState is
unchanged and the stage stays drafting, so validation can be retried. -/
theorem validateCase_drafting_spec (outcome : Option String) (s : SessionState)
    (hstage : s.compliance.stage = ComplianceStage.drafting) (hchat : s.chat ≠ []) :
    ((∃ t, outcome = some t) →
        (validateCase false outcome s).compliance.stage = ComplianceStage.ready)
  ∧ (outcome = none →
        (validateCase false outcome s).compliance = s.compliance
      ∧ (validateCase false outcome s).compliance.stage = ComplianceStage.drafting
      ∧ (validateCase false outcome s).chat
          = s.chat ++ [{ role := Role.assistant, content := validationFailedText }]) := by
  have hne : s.chat.isEmpty = false := by
    cases hc : s.chat with
    | nil => exact absurd hc hchat
    | cons a l => rfl
  constructor
  · rintro ⟨t, rfl⟩
    simp [validateCase, hne]
  · rintro rfl
    refine ⟨?_, ?_, ?_⟩
    · simp [validateCase, hne]
    · simp [validateCase, hne, hstage]
    · simp [validateCase, hne]

def draftingSession : SessionState :=
  { compliance := { active := true, agency := some (pickAgency 0),
                    stage := ComplianceStage.drafting }
    chat := [{ role := Role.assistant, content := incidentText (pickAgency 0) }]
    draft := emptyDraft
    logs := [] }

theorem validateCase_drafting_spec_witness :
    (validateCase false (some "ok") draftingSession).compliance.stage = ComplianceStage.ready
  ∧ (validateCase false none draftingSession).compliance.stage = ComplianceStage.drafting :=
  ⟨(validateCase_drafting_spec (some "ok") draftingSession rfl (by decide)).1 ⟨"ok", rfl⟩,
   ((validateCase_drafting_spec none draftingSession rfl (by decide)).2 rfl).2.1⟩

def alertSession : SessionState :=
  { compliance := { active := true, agency := some (pickAgency 0),
                    stage := ComplianceStage.alert }
    chat := [{ role := Role.assistant, content := incidentText (pickAgency 0) }]
    draft := emptyDraft
    logs := [] }

/-- Claim C1 counterexample: invoking the submit handler while the stage
is alert does change the ComplianceState, refuting the claim that the
handler rejects it as a no-op. -/
theorem submit_from_alert_changes_state :
    ¬((submitCase alertSession).compliance = alertSession.compliance) := by
  decide

/-- Claim C1 amended: the submit handler is unguarded: from every session
state, alert included, it sets the stage to submitted while leaving the
active flag, agency, transcript and draft unchanged; rejection of a submit
attempt at the alert stage happens only in the UI, which renders no
enabled submit control at that stage. -/
theorem submitCase_unconditional :
    (∀ s : SessionState,
        (submitCase s).compliance.stage = ComplianceStage.submitted
      ∧ (submitCase s).compliance.active = s.compliance.active
      ∧ (submitCase s).compliance.agency = s.compliance.agency
      ∧ (submitCase s).chat = s.chat
      ∧ (submitCase s).draft = s.draft)
  ∧ submitButtonEnabled ComplianceStage.alert = false := by
  exact ⟨fun s => ⟨rfl, rfl, rfl, rfl, rfl⟩, rfl⟩

/-! ## Theorems: streamed draft parser -/

/-- Claim C5: for every input in which none of the four PART section
labels are recognized (the section expression has no match for any label),
the parser returns the entire normalized text verbatim as the issue field
and leaves the facts, analysis and actions fields empty. -/
theorem parse_fallback (c : String)
    (h : ∀ L ∈ sectionLabels, findSection L (normChars c) = none) :
    (parseDraftContent c).issue = String.mk (normChars c)
  ∧ (parseDraftContent c).facts = ""
  ∧ (parseDraftContent c).analysis = ""
  ∧ (parseDraftContent c).actions = "" := by
  have hI := h labelI (by decide)
  have hII := h labelII (by decide)
  have hIII := h labelIII (by decide)
  have hIV := h labelIV (by decide)
  simp [parseDraftContent, getSection, hI, hII, hIII, hIV]

def helloElves : String := "Hello elves"

theorem parse_fallback_witness :
    (parseDraftContent helloElves).issue = String.mk (normChars helloElves)
  ∧ (parseDraftContent helloElves).facts = ""
  ∧ (parseDraftContent helloElves).analysis = ""
  ∧ (parseDraftContent helloElves).actions = "" :=
  parse_fallback helloElves (by decide)

def labeledDraft : String :=
  "PART I: Issue text\nPART II: Facts text\nREFERENCES:\n- Source A\n- Source B"

/-- Claim C6: on the labeled example input the parser extracts the issue
and facts bodies and the two reference lines with their leading bullets
stripped. -/
theorem parse_labeled_example :
    (parseDraftContent labeledDraft).issue = "Issue text"
  ∧ (parseDraftContent labeledDraft).facts = "Facts text"
  ∧ (parseDraftContent labeledDraft).references = ["Source A", "Source B"] := by
  decide

/-- Claim C10: the fallback is keyed on the emptiness of all four
extracted section bodies, not on the absence of labels, and reference
extraction is independent of it: whenever all four extracted bodies are
empty while the reference list is non-empty, the issue field is the entire
normalized text (references block included) and the references field still
carries the extracted lines. -/
theorem parse_refs_without_sections (c : String)
    (h1 : ∀ L ∈ sectionLabels, getSection L (normChars c) = [])
    (h2 : refsList (normChars c) ≠ []) :
    (parseDraftContent c).issue = String.mk (normChars c)
  ∧ (parseDraftContent c).references = (refsList (normChars c)).map String.mk
  ∧ (parseDraftContent c).references ≠ [] := by
  have hI := h1 labelI (by decide)
  have hII := h1 labelII (by decide)
  have hIII := h1 labelIII (by decide)
  have hIV := h1 labelIV (by decide)
  refine ⟨?_, ?_, ?_⟩
  · simp [parseDraftContent, hI, hII, hIII, hIV]
  · simp [parseDraftContent]
  · simp only [parseDraftContent]
    simp only [ne_eq, List.map_eq_nil_iff]
    exact h2

def refsOnly : String := "REFERENCES:\n- Source A"

theorem parse_refs_without_sections_witness :
    (parseDraftContent refsOnly).issue = String.mk (normChars refsOnly)
  ∧ (parseDraftContent refsOnly).references = (refsList (normChars refsOnly)).map String.mk
  ∧ (parseDraftContent refsOnly).references ≠ [] :=
  parse_refs_without_sections refsOnly (by decide) (by decide)

end Santa
